import Mathlib

/-!
Shallow embedding of the batch dispatcher in `lumberjack/actions.py`
(class `ActionQueue`), as of the 2014 Python-2 code base: `map` returns a
list, so the `actions` value built in `_flush` is an ordinary list that can
be traversed twice (once by the bulk call, once by the fallback writer) and
measured with `len`.

Modelling conventions:
  * The document body is an abstract type `B`; a postprocessor is a
    function `B -> Option B`, where `none` models the postprocessor raising
    an exception (the code hands the postprocessor a deep copy of the body,
    so a raising postprocessor leaves the stored body untouched, exactly as
    the pure `Option` reading does).
  * Python exceptions relevant to the control flow are the inductive `Exc`.
    A fallible operation returns the mutated state paired with
    `Option Exc` (the state reached at the raise point, since Python
    mutations before the raise persist).
  * The configuration dictionary is a structure.  The key
    max_queue_length is modelled with two option layers:
    `none` means the key is absent from the dictionary (subscripting it
    raises KeyError), `some none` means the key is present with value
    `None`, and `some (some k)` is an integer value.  The other keys used
    by the claims (interval, the index name pre-string, fallback_log_file)
    are modelled as always present.
  * The environment of one `_flush` call (`FlushEnv`) chooses the outcome
    of the injected bulk call and of the fallback file write; `_flush`
    itself is deterministic given that environment.  Its observable
    behaviour is collected in `FlushOut`: the final state, the list of
    actions handed to the bulk helper, the lines appended to the fallback
    file, the lost-logs count (if logged) and the exception escaping
    `_flush` (if any).
  * The `run` loop is modelled as `runLoop` over a finite schedule of
    per-iteration environments (`LoopEnv`): the flush environment, the
    external events (enqueues, manual triggers, shutdown request) applied
    during the interruptible wait, and whether `Event.wait` raises the
    interpreter-shutdown TypeError that the code catches and returns on.
-/

namespace Lumberjack

/-- Python exception kinds distinguished by the control flow of
`actions.py`. -/
inductive Exc : Type where
  | transportError : Exc
  | ioError : Exc
  | keyError : Exc
  | typeError : Exc
  | otherError : Exc
deriving DecidableEq

/-- One Elasticsearch bulk action dictionary as built by `queue_index`:
keys _op_type, _index, _type, _source. -/
structure Action (B : Type) where
  op_type : String
  index : String
  doc_type : String
  source : B
deriving DecidableEq

/-- The Lumberjack configuration keys consumed by `ActionQueue`.  The
field `index_pre` models the key named index underscore pre-fix in the
source; `max_queue_length` distinguishes an absent key (`none`) from a
key set to Python `None` (`some none`). -/
structure Config where
  interval : Nat
  max_queue_length : Option (Option Int)
  index_pre : String
  fallback_log_file : String

/-- A queue entry as appended by `queue_index`: the action paired with its
list of postprocessors. -/
abbrev QueueItem (B : Type) : Type := Action B × List (B → Option B)

/-- The mutable fields of an `ActionQueue` object: the pending queue, the
flush event flag, the captured-exception list and the running flag. -/
structure AQState (B : Type) where
  queue : List (QueueItem B)
  flush_event : Bool
  exceptions : List Exc
  running : Bool

/-- Property accessor last_exception: `None` when no exception has been
captured, otherwise the element at Python index -1 (the most recently
appended one). -/
def last_exception (s : AQState B) : Option Exc :=
  if s.exceptions.length = 0 then none else s.exceptions.getLast?

/-- Manual flush trigger: sets the event object and nothing else. -/
def trigger_flush (s : AQState B) : AQState B :=
  { s with flush_event := true }

/-- The action dictionary built by `queue_index` from its arguments:
op type index, index name = configured pre-string ++ suffix. -/
def mkAction (cfg : Config) (suffix doc_type : String) (body : B) : Action B :=
  ⟨"index", cfg.index_pre ++ suffix, doc_type, body⟩

/-- `ActionQueue.queue_index`: defaults the postprocessor list, builds the
action, appends under the lock, then consults max_queue_length.  If that
key is absent the subscript raises KeyError (after the append has already
happened); if it is `None` nothing more is done; if it is an integer `k`
and the queue length has reached `k`, `trigger_flush` is called before
returning. -/
def queue_index (cfg : Config) (s : AQState B) (suffix doc_type : String)
    (body : B) (postprocessors : Option (List (B → Option B))) :
    AQState B × Option Exc :=
  let pps := postprocessors.getD []
  let s1 : AQState B :=
    { s with queue := s.queue ++ [(mkAction cfg suffix doc_type body, pps)] }
  match cfg.max_queue_length with
  | none => (s1, some Exc.keyError)
  | some none => (s1, none)
  | some (some k) =>
      if (s1.queue.length : Int) ≥ k then (trigger_flush s1, none)
      else (s1, none)

/-- `ActionQueue._run_postprocessors`: folds the postprocessor list over
the action, replacing the source body on success and leaving the action
untouched (with an error log) when a postprocessor raises; the loop never
propagates the exception. -/
def run_postprocessors (queue_item : QueueItem B) : Action B :=
  let (action, postprocessors) := queue_item
  postprocessors.foldl
    (fun a pp =>
      match pp a.source with
      | some b => { a with source := b }
      | none => a)
    action

/-- The body obtained by running a postprocessor list over a starting
body, skipping the failing ones. -/
def bodyAfter (b : B) (pps : List (B → Option B)) : B :=
  pps.foldl (fun b pp => (pp b).getD b) b

/-- Outcome chosen by the test double environment for one `_flush` call:
what the injected bulk helper raises (if anything) and what the fallback
file write raises (if anything). -/
structure FlushEnv where
  bulk : Option Exc
  fileWrite : Option Exc

/-- Observable result of one `_flush` call. -/
structure FlushOut (B : Type) where
  state : AQState B
  sent : List (Action B)
  fileAppended : List String
  lostLogged : Option Nat
  raised : Option Exc

/-- JSON-style serialization of one full action dictionary, as
`json.dumps` receives it in the fallback path (the whole action, with its
metadata keys, not only the source body).  `dumpsB` serializes the
abstract body type. -/
def dumps (dumpsB : B → String) (a : Action B) : String :=
  "\x7b\"_op_type\": \"" ++ a.op_type ++ "\", \"_index\": \"" ++ a.index ++
    "\", \"_type\": \"" ++ a.doc_type ++ "\", \"_source\": " ++
    dumpsB a.source ++ "\x7d"

/-- `ActionQueue._flush`: swap the queue for an empty one under the lock,
postprocess every captured item, hand the whole list to the bulk helper;
on TransportError append one JSON line per action to the fallback file,
and if that write raises IOError log the batch length as lost; any other
exception from the bulk call or the file write escapes `_flush`. -/
def flush (dumpsB : B → String) (env : FlushEnv) (s : AQState B) :
    FlushOut B :=
  let queue := s.queue
  let s1 : AQState B := { s with queue := [] }
  let actions := queue.map run_postprocessors
  match env.bulk with
  | none => ⟨s1, actions, [], none, none⟩
  | some Exc.transportError =>
      match env.fileWrite with
      | none =>
          ⟨s1, actions, actions.map (fun doc => dumps dumpsB doc ++ "\n"),
            none, none⟩
      | some Exc.ioError => ⟨s1, actions, [], some actions.length, none⟩
      | some e => ⟨s1, actions, [], none, some e⟩
  | some e => ⟨s1, actions, [], none, some e⟩

/-- Serialization of the fallback lines as the specification document
words them: one JSON-serialized document body per line.  This definition
follows the specification text, not the source, and exists to be compared
with the lines `flush` actually appends. -/
def specBodyLines (dumpsB : B → String) (actions : List (Action B)) :
    List String :=
  actions.map (fun doc => dumpsB doc.source ++ "\n")

/-- One external call performed by a producer thread (or the shutdown
controller) while the loop is parked in its interruptible wait. -/
inductive ExtEvent (B : Type) where
  | enqueue : String → String → B → Option (List (B → Option B)) → ExtEvent B
  | trigger : ExtEvent B
  | stop : ExtEvent B

/-- Effect of one external event on the dispatcher state.  An enqueue that
raises KeyError does so in the producer thread; the state mutation it made
before raising is kept. -/
def applyEvent (cfg : Config) (s : AQState B) : ExtEvent B → AQState B
  | .enqueue suffix doc_type body pps =>
      (queue_index cfg s suffix doc_type body pps).1
  | .trigger => trigger_flush s
  | .stop => { s with running := false }

/-- Fold a list of external events over the state, in order. -/
def applyEvents (cfg : Config) (evs : List (ExtEvent B)) (s : AQState B) :
    AQState B :=
  evs.foldl (applyEvent cfg) s

/-- The `try ... except Exception` around `self._flush()` in `run`: an
exception escaping `_flush` is logged and appended to the exceptions
list; nothing propagates further. -/
def flushCaught (dumpsB : B → String) (env : FlushEnv) (s : AQState B) :
    FlushOut B :=
  match (flush dumpsB env s).raised with
  | none => flush dumpsB env s
  | some e =>
      { flush dumpsB env s with
        state := { (flush dumpsB env s).state with
          exceptions := (flush dumpsB env s).state.exceptions ++ [e] } }

/-- Environment of one iteration of the `run` loop: the flush outcome, the
external events interleaved during the wait, and whether `Event.wait`
raises the interpreter-shutdown TypeError that `run` catches and returns
on. -/
structure LoopEnv (B : Type) where
  flushEnv : FlushEnv
  events : List (ExtEvent B)
  waitTypeError : Bool

/-- The state at the end of one loop iteration: flush (with the loop-level
catch), then the finally block clears the event object, then the external
events land during the wait. -/
def iterNext (dumpsB : B → String) (cfg : Config) (env : LoopEnv B)
    (s : AQState B) : AQState B :=
  applyEvents cfg env.events
    { (flushCaught dumpsB env.flushEnv s).state with flush_event := false }

/-- Trace record of one executed loop iteration: the flush outcome and the
value `Event.wait` returned (whether the wake signal was observed set). -/
structure IterEntry (B : Type) where
  fo : FlushOut B
  triggered : Bool

/-- How a bounded run of the loop ended. -/
inductive LoopExit : Type where
  | condFalse : LoopExit
  | typeErrorExit : LoopExit
  | fuelOut : LoopExit
deriving DecidableEq

/-- The `run` loop over a finite schedule of iteration environments.  The
while condition (running or non-empty queue) is tested first; a passing
test runs one iteration (flush with catch, clear event, wait during which
the events land).  If the wait raises TypeError the method returns; the
schedule running out is `fuelOut` (the loop itself would keep going).
Returns the final state, the iteration trace and how the run ended. -/
def runLoop (dumpsB : B → String) (cfg : Config) :
    List (LoopEnv B) → AQState B → AQState B × List (IterEntry B) × LoopExit
  | [], s =>
    if s.running = true ∨ s.queue.length > 0 then (s, [], LoopExit.fuelOut)
    else (s, [], LoopExit.condFalse)
  | env :: rest, s =>
    if s.running = true ∨ s.queue.length > 0 then
      let fo := flushCaught dumpsB env.flushEnv s
      let s3 := iterNext dumpsB cfg env s
      let entry : IterEntry B := ⟨fo, s3.flush_event⟩
      if env.waitTypeError = true then (s3, [entry], LoopExit.typeErrorExit)
      else
        let r := runLoop dumpsB cfg rest s3
        (r.1, entry :: r.2.1, r.2.2)
    else (s, [], LoopExit.condFalse)

/-- The arguments of one producer call to `queue_index`. -/
structure EnqueueReq (B : Type) where
  suffix : String
  doc_type : String
  body : B
  postprocessors : Option (List (B → Option B))

/-- The queue item a single `queue_index` call appends. -/
def toItem (cfg : Config) (r : EnqueueReq B) : QueueItem B :=
  (mkAction cfg r.suffix r.doc_type r.body, r.postprocessors.getD [])

/-- A sequence of `queue_index` calls, in order. -/
def enqueueAll (cfg : Config) (s : AQState B) (reqs : List (EnqueueReq B)) :
    AQState B :=
  reqs.foldl
    (fun s r => (queue_index cfg s r.suffix r.doc_type r.body
      r.postprocessors).1) s

/-- The state `ActionQueue.__init__` builds: empty queue, event object
unset, no captured exceptions, running flag true. -/
def initState : AQState B := ⟨[], false, [], true⟩

/-- A configuration whose max_queue_length key is absent from the
dictionary. -/
def cfgAbsent : Config := ⟨1, none, "lj-", "fallback.log"⟩

/-- A configuration whose max_queue_length key is present with value
Python None. -/
def cfgNull : Config := ⟨1, some none, "lj-", "fallback.log"⟩

/-- A configuration whose max_queue_length key holds the integer `k`. -/
def cfgK (k : Int) : Config := ⟨1, some (some k), "lj-", "fallback.log"⟩

/-- A concrete running state holding one pending record. -/
def oneRecState : AQState Nat :=
  ⟨[((⟨"index", "lj-a", "t", 5⟩ : Action Nat), [])], false, [], true⟩

/-- A loop iteration environment in which the bulk write raises a
transport error and the fallback write raises IOError, with no external
events and a normally returning wait. -/
def envC6 : LoopEnv Nat :=
  ⟨⟨some Exc.transportError, some Exc.ioError⟩, [], false⟩

/-! Helper lemmas about the embedded operations. -/

theorem queue_index_fst_queue (cfg : Config) (s : AQState B)
    (suffix doc_type : String) (body : B)
    (pps : Option (List (B → Option B))) :
    (queue_index cfg s suffix doc_type body pps).1.queue =
      s.queue ++ [(mkAction cfg suffix doc_type body, pps.getD [])] := by
  unfold queue_index trigger_flush
  rcases cfg.max_queue_length with _ | (_ | k)
  · rfl
  · rfl
  · dsimp only
    split <;> rfl

theorem queue_index_fst_running (cfg : Config) (s : AQState B)
    (suffix doc_type : String) (body : B)
    (pps : Option (List (B → Option B))) :
    (queue_index cfg s suffix doc_type body pps).1.running = s.running := by
  unfold queue_index trigger_flush
  rcases cfg.max_queue_length with _ | (_ | k)
  · rfl
  · rfl
  · dsimp only
    split <;> rfl

theorem queue_index_fst_exceptions (cfg : Config) (s : AQState B)
    (suffix doc_type : String) (body : B)
    (pps : Option (List (B → Option B))) :
    (queue_index cfg s suffix doc_type body pps).1.exceptions =
      s.exceptions := by
  unfold queue_index trigger_flush
  rcases cfg.max_queue_length with _ | (_ | k)
  · rfl
  · rfl
  · dsimp only
    split <;> rfl

theorem enqueueAll_queue (cfg : Config) (reqs : List (EnqueueReq B)) :
    ∀ s : AQState B,
      (enqueueAll cfg s reqs).queue = s.queue ++ reqs.map (toItem cfg) := by
  induction reqs with
  | nil => intro s; simp [enqueueAll]
  | cons r rs ih =>
      intro s
      have step : enqueueAll cfg s (r :: rs) =
          enqueueAll cfg
            ((queue_index cfg s r.suffix r.doc_type r.body
              r.postprocessors).1) rs := rfl
      rw [step, ih, queue_index_fst_queue]
      simp [toItem]

theorem flush_state (dumpsB : B → String) (env : FlushEnv) (s : AQState B) :
    (flush dumpsB env s).state = { s with queue := [] } := by
  unfold flush
  rcases env.bulk with _ | eb
  · rfl
  · cases eb with
    | transportError =>
        rcases env.fileWrite with _ | ef
        · rfl
        · cases ef <;> rfl
    | ioError => rfl
    | keyError => rfl
    | typeError => rfl
    | otherError => rfl

theorem flush_sent (dumpsB : B → String) (env : FlushEnv) (s : AQState B) :
    (flush dumpsB env s).sent = s.queue.map run_postprocessors := by
  unfold flush
  rcases env.bulk with _ | eb
  · rfl
  · cases eb with
    | transportError =>
        rcases env.fileWrite with _ | ef
        · rfl
        · cases ef <;> rfl
    | ioError => rfl
    | keyError => rfl
    | typeError => rfl
    | otherError => rfl

theorem bodyAfter_append (b : B) (l1 l2 : List (B → Option B)) :
    bodyAfter b (l1 ++ l2) = bodyAfter (bodyAfter b l1) l2 := by
  unfold bodyAfter
  rw [List.foldl_append]

theorem run_postprocessors_eq (pps : List (B → Option B)) :
    ∀ a : Action B,
      run_postprocessors (a, pps) = { a with source := bodyAfter a.source pps } := by
  induction pps with
  | nil => intro a; rfl
  | cons pp pps ih =>
      intro a
      have step : run_postprocessors (a, pp :: pps) =
          run_postprocessors
            ((match pp a.source with
              | some b => { a with source := b }
              | none => a), pps) := rfl
      rw [step]
      cases h : pp a.source with
      | some b =>
          show run_postprocessors ({ a with source := b }, pps) = _
          rw [ih]
          simp [bodyAfter, h]
      | none =>
          show run_postprocessors (a, pps) = _
          rw [ih]
          simp [bodyAfter, h]

theorem flush_transport_fallback_ok (dumpsB : B → String) (env : FlushEnv)
    (s : AQState B) (hb : env.bulk = some Exc.transportError)
    (hf : env.fileWrite = none) :
    flush dumpsB env s =
      ⟨{ s with queue := [] }, s.queue.map run_postprocessors,
        (s.queue.map run_postprocessors).map
          (fun doc => dumps dumpsB doc ++ "\n"), none, none⟩ := by
  unfold flush
  rw [hb, hf]

theorem flush_transport_fallback_fails (dumpsB : B → String) (env : FlushEnv)
    (s : AQState B) (hb : env.bulk = some Exc.transportError)
    (hf : env.fileWrite = some Exc.ioError) :
    flush dumpsB env s =
      ⟨{ s with queue := [] }, s.queue.map run_postprocessors, [],
        some (s.queue.map run_postprocessors).length, none⟩ := by
  unfold flush
  rw [hb, hf]

theorem flushCaught_sent (dumpsB : B → String) (env : FlushEnv)
    (s : AQState B) :
    (flushCaught dumpsB env s).sent = s.queue.map run_postprocessors := by
  rcases h : (flush dumpsB env s).raised with _ | e <;>
    · unfold flushCaught
      rw [h]
      simp [flush_sent]

theorem flushCaught_state_queue (dumpsB : B → String) (env : FlushEnv)
    (s : AQState B) :
    (flushCaught dumpsB env s).state.queue = [] := by
  rcases h : (flush dumpsB env s).raised with _ | e <;>
    · unfold flushCaught
      rw [h]
      simp [flush_state]

theorem flushCaught_state_running (dumpsB : B → String) (env : FlushEnv)
    (s : AQState B) :
    (flushCaught dumpsB env s).state.running = s.running := by
  rcases h : (flush dumpsB env s).raised with _ | e <;>
    · unfold flushCaught
      rw [h]
      simp [flush_state]

theorem flushCaught_raised_some (dumpsB : B → String) (env : FlushEnv)
    (s : AQState B) (e : Exc) (h : (flush dumpsB env s).raised = some e) :
    (flushCaught dumpsB env s).state.exceptions = s.exceptions ++ [e] := by
  unfold flushCaught
  rw [h]
  simp [flush_state]

theorem applyEvent_exceptions (cfg : Config) (s : AQState B)
    (ev : ExtEvent B) :
    (applyEvent cfg s ev).exceptions = s.exceptions := by
  cases ev with
  | enqueue suffix doc_type body pps =>
      exact queue_index_fst_exceptions cfg s suffix doc_type body pps
  | trigger => rfl
  | stop => rfl

theorem applyEvents_exceptions (cfg : Config) (evs : List (ExtEvent B)) :
    ∀ s : AQState B, (applyEvents cfg evs s).exceptions = s.exceptions := by
  induction evs with
  | nil => intro s; rfl
  | cons ev evs ih =>
      intro s
      have step : applyEvents cfg (ev :: evs) s =
          applyEvents cfg evs (applyEvent cfg s ev) := rfl
      rw [step, ih, applyEvent_exceptions]

theorem cond_false_shape (s : AQState B)
    (hc : ¬(s.running = true ∨ s.queue.length > 0)) :
    s.running = false ∧ s.queue = [] := by
  push_neg at hc
  obtain ⟨h1, h2⟩ := hc
  constructor
  · cases hr : s.running
    · rfl
    · exact absurd hr h1
  · exact List.length_eq_zero.mp (Nat.le_zero.mp h2)

theorem runLoop_cons_continue (dumpsB : B → String) (cfg : Config)
    (env : LoopEnv B) (rest : List (LoopEnv B)) (s : AQState B)
    (hc : s.running = true ∨ s.queue.length > 0)
    (hw : env.waitTypeError = false) :
    runLoop dumpsB cfg (env :: rest) s =
      ((runLoop dumpsB cfg rest (iterNext dumpsB cfg env s)).1,
        ⟨flushCaught dumpsB env.flushEnv s,
          (iterNext dumpsB cfg env s).flush_event⟩ ::
          (runLoop dumpsB cfg rest (iterNext dumpsB cfg env s)).2.1,
        (runLoop dumpsB cfg rest (iterNext dumpsB cfg env s)).2.2) := by
  simp [runLoop, hc, hw, iterNext]

theorem runLoop_exit_condFalse (dumpsB : B → String) (cfg : Config) :
    ∀ (envs : List (LoopEnv B)) (s : AQState B),
      (runLoop dumpsB cfg envs s).2.2 = LoopExit.condFalse →
      (runLoop dumpsB cfg envs s).1.running = false ∧
        (runLoop dumpsB cfg envs s).1.queue = [] := by
  intro envs
  induction envs with
  | nil =>
      intro s h
      by_cases hc : s.running = true ∨ s.queue.length > 0
      · simp [runLoop, hc] at h
      · obtain ⟨h1, h2⟩ := cond_false_shape s hc
        simp [runLoop, hc, h1, h2]
  | cons env rest ih =>
      intro s h
      by_cases hc : s.running = true ∨ s.queue.length > 0
      · by_cases hw : env.waitTypeError = true
        · simp [runLoop, hc, hw] at h
        · have hw' : env.waitTypeError = false := by
            cases hwv : env.waitTypeError
            · rfl
            · exact absurd hwv hw
          rw [runLoop_cons_continue dumpsB cfg env rest s hc hw'] at h ⊢
          exact ih (iterNext dumpsB cfg env s) h
      · obtain ⟨h1, h2⟩ := cond_false_shape s hc
        simp [runLoop, hc, h1, h2]

theorem queue_index_k (cfg : Config) (s : AQState B)
    (suffix doc_type : String) (body : B)
    (pps : Option (List (B → Option B))) (k : Int)
    (hk : cfg.max_queue_length = some (some k)) :
    queue_index cfg s suffix doc_type body pps =
      (if ((s.queue ++ [(mkAction cfg suffix doc_type body,
            pps.getD [])]).length : Int) ≥ k then
        (trigger_flush { s with queue :=
          s.queue ++ [(mkAction cfg suffix doc_type body, pps.getD [])] },
          none)
      else ({ s with queue :=
          s.queue ++ [(mkAction cfg suffix doc_type body, pps.getD [])] },
          none)) := by
  unfold queue_index
  rw [hk]

theorem runLoop_cons_typeerror (dumpsB : B → String) (cfg : Config)
    (env : LoopEnv B) (rest : List (LoopEnv B)) (s : AQState B)
    (hc : s.running = true ∨ s.queue.length > 0)
    (hw : env.waitTypeError = true) :
    runLoop dumpsB cfg (env :: rest) s =
      (iterNext dumpsB cfg env s,
        [⟨flushCaught dumpsB env.flushEnv s,
          (iterNext dumpsB cfg env s).flush_event⟩],
        LoopExit.typeErrorExit) := by
  simp [runLoop, hc, hw, iterNext]

theorem runLoop_no_typeerror (dumpsB : B → String) (cfg : Config) :
    ∀ (envs : List (LoopEnv B)),
      (∀ env ∈ envs, env.waitTypeError = false) →
      ∀ s : AQState B,
        (runLoop dumpsB cfg envs s).2.2 ≠ LoopExit.typeErrorExit := by
  intro envs
  induction envs with
  | nil =>
      intro hno s
      by_cases hc : s.running = true ∨ s.queue.length > 0 <;>
        simp [runLoop, hc]
  | cons env rest ih =>
      intro hno s
      have hwf : env.waitTypeError = false :=
        hno env (List.mem_cons_self env rest)
      by_cases hc : s.running = true ∨ s.queue.length > 0
      · rw [runLoop_cons_continue dumpsB cfg env rest s hc hwf]
        exact ih (fun e he => hno e (List.mem_cons_of_mem env he))
          (iterNext dumpsB cfg env s)
      · simp [runLoop, hc]

/-! Claim theorems. -/

/-- C10: the last_exception accessor returns None exactly when the
captured-exception list is empty, and otherwise the most recently
appended exception; as a pure function of the state it neither raises nor
modifies the list. -/
theorem C10_last_exception (s : AQState B) :
    (last_exception s = none ↔ s.exceptions = []) ∧
    ∀ (es : List Exc) (e : Exc), s.exceptions = es ++ [e] →
      last_exception s = some e := by
  constructor
  · unfold last_exception
    constructor
    · intro h
      by_cases hl : s.exceptions.length = 0
      · exact List.length_eq_zero.mp hl
      · rw [if_neg hl] at h
        exact List.getLast?_eq_none_iff.mp h
    · intro h
      rw [if_pos (by rw [h]; rfl)]
  · intro es e h
    unfold last_exception
    rw [h, if_neg (by simp)]
    exact List.getLast?_concat es

/-- Witness for C10 at a concrete state holding two captured
exceptions. -/
theorem C10_last_exception_witness :
    last_exception
      (⟨[], false, [Exc.ioError, Exc.keyError], true⟩ : AQState Nat) =
      some Exc.keyError :=
  (C10_last_exception _).2 [Exc.ioError] Exc.keyError rfl

/-- C3: a postprocessor that raises leaves the record body exactly as the
earlier (successful) postprocessors left it, the remaining postprocessors
still run on that body, and nothing propagates: running the list with the
failing postprocessor included equals running it with that postprocessor
removed. -/
theorem C3_postprocessor_failure (a : Action B)
    (pps1 pps2 : List (B → Option B)) (pp : B → Option B)
    (h : pp (bodyAfter a.source pps1) = none) :
    run_postprocessors (a, pps1 ++ pp :: pps2) =
      run_postprocessors (a, pps1 ++ pps2) ∧
    bodyAfter a.source (pps1 ++ [pp]) = bodyAfter a.source pps1 := by
  have h2 : bodyAfter a.source (pps1 ++ [pp]) = bodyAfter a.source pps1 := by
    rw [bodyAfter_append]
    have single : bodyAfter (bodyAfter a.source pps1) [pp] =
        (pp (bodyAfter a.source pps1)).getD (bodyAfter a.source pps1) := rfl
    rw [single, h]
    rfl
  refine ⟨?_, h2⟩
  rw [run_postprocessors_eq, run_postprocessors_eq]
  have key : bodyAfter a.source (pps1 ++ pp :: pps2) =
      bodyAfter a.source (pps1 ++ pps2) := by
    have assoc : pps1 ++ pp :: pps2 = (pps1 ++ [pp]) ++ pps2 := by simp
    rw [assoc, bodyAfter_append, h2, ← bodyAfter_append]
  rw [key]

/-- Witness for C3: a postprocessor that fails after one successful
increment, followed by a doubling postprocessor that still runs. -/
theorem C3_postprocessor_failure_witness :
    ((fun _ : Nat => (none : Option Nat))
        (bodyAfter 3 [fun b : Nat => some (b + 1)]) = none) ∧
    (run_postprocessors
        ((⟨"index", "lj-a", "t", 3⟩ : Action Nat),
          [fun b : Nat => some (b + 1)] ++
            (fun _ : Nat => (none : Option Nat)) :: [fun b : Nat => some (b * 2)]) =
      run_postprocessors
        ((⟨"index", "lj-a", "t", 3⟩ : Action Nat),
          [fun b : Nat => some (b + 1)] ++ [fun b : Nat => some (b * 2)]) ∧
    bodyAfter 3
        ([fun b : Nat => some (b + 1)] ++ [fun _ : Nat => (none : Option Nat)]) =
      bodyAfter 3 [fun b : Nat => some (b + 1)]) :=
  ⟨rfl, C3_postprocessor_failure _ _ _ _ rfl⟩

/-- C4 counterexample: with the max_queue_length key absent from the
configuration dictionary (the unset case of the claim), queue_index
raises KeyError from the config subscript, so it does not always succeed
without raising. -/
theorem C4_unset_counterexample :
    (queue_index cfgAbsent (initState : AQState Nat) "a" "t" 5 none).2 =
      some Exc.keyError := rfl

/-- C4 (amended): when the max_queue_length key is present with value
None, queue_index always succeeds without raising, performs only the
in-memory append of the record, and never sets the flush signal: the
result is exactly the input state with the new item appended, and no
exception. -/
theorem C4_null_case (cfg : Config) (s : AQState B)
    (suffix doc_type : String) (body : B)
    (pps : Option (List (B → Option B)))
    (h : cfg.max_queue_length = some none) :
    queue_index cfg s suffix doc_type body pps =
      ({ s with queue :=
          s.queue ++ [(mkAction cfg suffix doc_type body, pps.getD [])] },
        none) := by
  unfold queue_index
  rw [h]

/-- Witness for C4 at the concrete None-valued configuration. -/
theorem C4_null_case_witness :
    cfgNull.max_queue_length = some none ∧
    queue_index cfgNull (initState : AQState Nat) "a" "t" 7 none =
      ({ (initState : AQState Nat) with
          queue := [(mkAction cfgNull "a" "t" 7, [])] }, none) :=
  ⟨rfl, C4_null_case cfgNull _ "a" "t" 7 none rfl⟩

/-- C5: with max_queue_length the integer k, the queue_index call that
brings the queue length to k sets the flush wake signal before it
returns, raises nothing, and does not itself flush: all k records are
still pending in the returned state. -/
theorem C5_threshold_triggers (cfg : Config) (s : AQState B)
    (suffix doc_type : String) (body : B)
    (pps : Option (List (B → Option B))) (k : Int)
    (hk : cfg.max_queue_length = some (some k)) (hpos : 0 < k)
    (hlen : (s.queue.length : Int) = k - 1) :
    (queue_index cfg s suffix doc_type body pps).1.flush_event = true ∧
    (queue_index cfg s suffix doc_type body pps).2 = none ∧
    (queue_index cfg s suffix doc_type body pps).1.queue =
      s.queue ++ [(mkAction cfg suffix doc_type body, pps.getD [])] := by
  have hge : ((s.queue ++ [(mkAction cfg suffix doc_type body,
      pps.getD [])]).length : Int) ≥ k := by
    simp only [List.length_append, List.length_cons, List.length_nil]
    omega
  refine ⟨?_, ?_, queue_index_fst_queue cfg s suffix doc_type body pps⟩
  · rw [queue_index_k cfg s suffix doc_type body pps k hk, if_pos hge]
    rfl
  · rw [queue_index_k cfg s suffix doc_type body pps k hk, if_pos hge]

/-- Witness for C5: threshold 1, initially empty queue; the first enqueue
reaches the threshold and sets the signal. -/
theorem C5_threshold_triggers_witness :
    (cfgK 1).max_queue_length = some (some 1) ∧ (0 : Int) < 1 ∧
    (((initState : AQState Nat).queue.length : Int) = 1 - 1) ∧
    ((queue_index (cfgK 1) (initState : AQState Nat) "a" "t" 5 none).1.flush_event
        = true ∧
      (queue_index (cfgK 1) (initState : AQState Nat) "a" "t" 5 none).2 = none ∧
      (queue_index (cfgK 1) (initState : AQState Nat) "a" "t" 5 none).1.queue =
        (initState : AQState Nat).queue ++ [(mkAction (cfgK 1) "a" "t" 5, [])]) :=
  ⟨rfl, by decide, by decide,
    C5_threshold_triggers (cfgK 1) _ "a" "t" 5 none 1 rfl (by decide) (by decide)⟩

/-- C1: after N enqueues from an empty queue followed by one flush, the
bulk helper receives exactly the N postprocessed actions in enqueue
order, and the pending queue is empty in the post-flush state whatever
the bulk outcome is. -/
theorem C1_flush_batch (dumpsB : B → String) (cfg : Config) (env : FlushEnv)
    (s : AQState B) (reqs : List (EnqueueReq B)) (h : s.queue = []) :
    (flush dumpsB env (enqueueAll cfg s reqs)).sent =
      reqs.map (fun r => run_postprocessors (toItem cfg r)) ∧
    (flush dumpsB env (enqueueAll cfg s reqs)).sent.length = reqs.length ∧
    (flush dumpsB env (enqueueAll cfg s reqs)).state.queue = [] := by
  refine ⟨?_, ?_, ?_⟩
  · rw [flush_sent, enqueueAll_queue, h]
    simp
  · rw [flush_sent, enqueueAll_queue, h]
    simp
  · rw [flush_state]

/-- Witness for C1: two enqueued records and a failing bulk write; the
batch still holds both actions in order and the queue is empty. -/
theorem C1_flush_batch_witness :
    (initState : AQState Nat).queue = [] ∧
    ((flush toString ⟨some Exc.transportError, none⟩
        (enqueueAll cfgNull (initState : AQState Nat)
          [⟨"a", "t", 1, none⟩, ⟨"b", "t", 2, none⟩])).sent =
      [⟨"a", "t", 1, none⟩, ⟨"b", "t", 2, none⟩].map
        (fun r => run_postprocessors (toItem cfgNull r)) ∧
    (flush toString ⟨some Exc.transportError, none⟩
        (enqueueAll cfgNull (initState : AQState Nat)
          [⟨"a", "t", 1, none⟩, ⟨"b", "t", 2, none⟩])).sent.length = 2 ∧
    (flush toString ⟨some Exc.transportError, none⟩
        (enqueueAll cfgNull (initState : AQState Nat)
          [⟨"a", "t", 1, none⟩, ⟨"b", "t", 2, none⟩])).state.queue = []) :=
  ⟨rfl, C1_flush_batch toString cfgNull ⟨some Exc.transportError, none⟩ _
    [⟨"a", "t", 1, none⟩, ⟨"b", "t", 2, none⟩] rfl⟩

/-- C2 counterexample: at a concrete one-record batch with a transport
error and a writable fallback file, the appended line serializes the
whole action dictionary, which differs from the claimed JSON-serialized
document body alone. -/
theorem C2_full_action_counterexample :
    (flush toString ⟨some Exc.transportError, none⟩
        oneRecState).fileAppended ≠
      specBodyLines toString
        (flush toString ⟨some Exc.transportError, none⟩ oneRecState).sent := by
  decide

/-- C2 (amended): on a transport error with a writable fallback file,
each postprocessed record of the batch is appended as exactly one JSON
line, newline-terminated, in original batch order — but each line
serializes the full action object (operation type, index, type and the
body under the source key), not the bare document body; and nothing is
appended unless the bulk write raised a transport error. -/
theorem C2_fallback_lines (dumpsB : B → String) (env : FlushEnv)
    (s : AQState B) :
    (env.bulk = some Exc.transportError → env.fileWrite = none →
      (flush dumpsB env s).fileAppended =
        (s.queue.map run_postprocessors).map
          (fun doc => dumps dumpsB doc ++ "\n")) ∧
    (env.bulk ≠ some Exc.transportError →
      (flush dumpsB env s).fileAppended = []) := by
  constructor
  · intro hb hf
    rw [flush_transport_fallback_ok dumpsB env s hb hf]
  · intro hne
    rcases hb : env.bulk with _ | e
    · unfold flush
      rw [hb]
    · cases e with
      | transportError => exact absurd hb hne
      | ioError =>
          unfold flush
          rw [hb]
      | keyError =>
          unfold flush
          rw [hb]
      | typeError =>
          unfold flush
          rw [hb]
      | otherError =>
          unfold flush
          rw [hb]

/-- Witness for C2 at the concrete one-record batch. -/
theorem C2_fallback_lines_witness :
    (flush toString (⟨some Exc.transportError, none⟩ : FlushEnv)
        oneRecState).fileAppended =
      (oneRecState.queue.map run_postprocessors).map
        (fun doc => dumps toString doc ++ "\n") :=
  (C2_fallback_lines toString ⟨some Exc.transportError, none⟩
    oneRecState).1 rfl rfl

/-- C6: when the bulk write raises a transport error and the fallback
write raises IOError, nothing escapes _flush, the lost-count log carries
exactly the batch size, nothing reaches the fallback file, the batch is
dropped (queue empty, no retry), the running flag is untouched, and the
loop continues into the remaining schedule, flushing later batches
normally. -/
theorem C6_fallback_failure (dumpsB : B → String) (cfg : Config)
    (env : LoopEnv B) (rest : List (LoopEnv B)) (s : AQState B)
    (hb : env.flushEnv.bulk = some Exc.transportError)
    (hf : env.flushEnv.fileWrite = some Exc.ioError)
    (hw : env.waitTypeError = false) (hr : s.running = true) :
    (flush dumpsB env.flushEnv s).raised = none ∧
    (flush dumpsB env.flushEnv s).lostLogged = some s.queue.length ∧
    (flush dumpsB env.flushEnv s).state.queue = [] ∧
    (flush dumpsB env.flushEnv s).fileAppended = [] ∧
    (flush dumpsB env.flushEnv s).state.running = s.running ∧
    runLoop dumpsB cfg (env :: rest) s =
      ((runLoop dumpsB cfg rest (iterNext dumpsB cfg env s)).1,
        ⟨flushCaught dumpsB env.flushEnv s,
          (iterNext dumpsB cfg env s).flush_event⟩ ::
          (runLoop dumpsB cfg rest (iterNext dumpsB cfg env s)).2.1,
        (runLoop dumpsB cfg rest (iterNext dumpsB cfg env s)).2.2) := by
  have hfl := flush_transport_fallback_fails dumpsB env.flushEnv s hb hf
  refine ⟨?_, ?_, ?_, ?_, ?_,
    runLoop_cons_continue dumpsB cfg env rest s (Or.inl hr) hw⟩ <;>
    rw [hfl] <;> simp

/-- Witness for C6 at a one-record batch with both failures injected. -/
theorem C6_fallback_failure_witness :
    envC6.flushEnv.bulk = some Exc.transportError ∧
    envC6.flushEnv.fileWrite = some Exc.ioError ∧
    envC6.waitTypeError = false ∧ oneRecState.running = true ∧
    ((flush toString envC6.flushEnv oneRecState).raised = none ∧
      (flush toString envC6.flushEnv oneRecState).lostLogged =
        some oneRecState.queue.length ∧
      (flush toString envC6.flushEnv oneRecState).state.queue = [] ∧
      (flush toString envC6.flushEnv oneRecState).fileAppended = [] ∧
      (flush toString envC6.flushEnv oneRecState).state.running =
        oneRecState.running ∧
      runLoop toString cfgNull [envC6] oneRecState =
        ((runLoop toString cfgNull []
            (iterNext toString cfgNull envC6 oneRecState)).1,
          ⟨flushCaught toString envC6.flushEnv oneRecState,
            (iterNext toString cfgNull envC6 oneRecState).flush_event⟩ ::
            (runLoop toString cfgNull []
              (iterNext toString cfgNull envC6 oneRecState)).2.1,
          (runLoop toString cfgNull []
            (iterNext toString cfgNull envC6 oneRecState)).2.2)) :=
  ⟨rfl, rfl, rfl, rfl,
    C6_fallback_failure toString cfgNull envC6 [] oneRecState rfl rfl rfl rfl⟩

/-- C7 counterexample: a concrete run in which the interruptible wait
raises the interpreter-shutdown TypeError makes the loop return while the
running flag is still true, so the loop has an exit that is not the
cooperative running-false-and-empty-queue shutdown. -/
theorem C7_typeerror_exit_counterexample :
    (runLoop toString cfgNull [⟨⟨none, none⟩, [], true⟩]
        oneRecState).2.2 = LoopExit.typeErrorExit ∧
    (runLoop toString cfgNull [⟨⟨none, none⟩, [], true⟩]
        oneRecState).1.running = true := by
  constructor <;> rfl

/-- C7 (amended): no flush error stops the loop — an exception escaping
_flush is appended to the exceptions list and the loop continues into the
next iteration — and the only exits are the cooperative one (the loop
condition observing running false with an empty queue) and the
interpreter-shutdown TypeError raised by the interruptible wait. -/
theorem C7_loop_survives_errors (dumpsB : B → String) (cfg : Config) :
    (∀ (envs : List (LoopEnv B)) (s : AQState B),
      (runLoop dumpsB cfg envs s).2.2 = LoopExit.condFalse →
      (runLoop dumpsB cfg envs s).1.running = false ∧
        (runLoop dumpsB cfg envs s).1.queue = []) ∧
    (∀ (env : LoopEnv B) (rest : List (LoopEnv B)) (s : AQState B) (e : Exc),
      s.running = true → env.waitTypeError = false →
      (flush dumpsB env.flushEnv s).raised = some e →
      (iterNext dumpsB cfg env s).exceptions = s.exceptions ++ [e] ∧
      runLoop dumpsB cfg (env :: rest) s =
        ((runLoop dumpsB cfg rest (iterNext dumpsB cfg env s)).1,
          ⟨flushCaught dumpsB env.flushEnv s,
            (iterNext dumpsB cfg env s).flush_event⟩ ::
            (runLoop dumpsB cfg rest (iterNext dumpsB cfg env s)).2.1,
          (runLoop dumpsB cfg rest (iterNext dumpsB cfg env s)).2.2)) := by
  constructor
  · exact runLoop_exit_condFalse dumpsB cfg
  · intro env rest s e hr hw hraise
    constructor
    · unfold iterNext
      rw [applyEvents_exceptions]
      show (flushCaught dumpsB env.flushEnv s).state.exceptions =
        s.exceptions ++ [e]
      exact flushCaught_raised_some dumpsB env.flushEnv s e hraise
    · exact runLoop_cons_continue dumpsB cfg env rest s (Or.inl hr) hw

/-- Witness for C7: a stopped dispatcher with an empty queue exits with
the cooperative condition, and the exit analysis applies to it. -/
theorem C7_loop_survives_errors_witness :
    (runLoop toString cfgNull ([] : List (LoopEnv Nat))
        ⟨[], false, [], false⟩).2.2 = LoopExit.condFalse ∧
    ((runLoop toString cfgNull ([] : List (LoopEnv Nat))
        ⟨[], false, [], false⟩).1.running = false ∧
      (runLoop toString cfgNull ([] : List (LoopEnv Nat))
        ⟨[], false, [], false⟩).1.queue = []) :=
  ⟨rfl, (C7_loop_survives_errors toString cfgNull).1 []
    ⟨[], false, [], false⟩ rfl⟩

/-- C8: trigger_flush is idempotent, so two manual triggers landing
between two loop observations of the wake signal leave the dispatcher in
the same state as one and yield an identical run; the iteration that
observes the signal clears it, so exactly one woken flush cycle follows,
the iteration after it seeing the signal unset. -/
theorem C8_trigger_idempotent (dumpsB : B → String) (cfg : Config)
    (fe1 fe2 : FlushEnv) (rest : List (LoopEnv B)) (s : AQState B)
    (hr : s.running = true) :
    (∀ t : AQState B, trigger_flush (trigger_flush t) = trigger_flush t) ∧
    runLoop dumpsB cfg
        (⟨fe1, [ExtEvent.trigger, ExtEvent.trigger], false⟩ ::
          ⟨fe2, [], false⟩ :: rest) s =
      runLoop dumpsB cfg
        (⟨fe1, [ExtEvent.trigger], false⟩ :: ⟨fe2, [], false⟩ :: rest) s ∧
    ∃ e1 e2 tr,
      (runLoop dumpsB cfg
          (⟨fe1, [ExtEvent.trigger, ExtEvent.trigger], false⟩ ::
            ⟨fe2, [], false⟩ :: rest) s).2.1 = e1 :: e2 :: tr ∧
      e1.triggered = true ∧ e2.triggered = false := by
  have idem : ∀ t : AQState B,
      trigger_flush (trigger_flush t) = trigger_flush t := fun t => rfl
  have hiter :
      iterNext dumpsB cfg
        ⟨fe1, [ExtEvent.trigger, ExtEvent.trigger], false⟩ s =
      iterNext dumpsB cfg ⟨fe1, [ExtEvent.trigger], false⟩ s := rfl
  have hcond1 : s.running = true ∨ s.queue.length > 0 := Or.inl hr
  have hrun3 :
      (iterNext dumpsB cfg
        ⟨fe1, [ExtEvent.trigger, ExtEvent.trigger], false⟩ s).running =
        true := by
    show (flushCaught dumpsB fe1 s).state.running = true
    rw [flushCaught_state_running]
    exact hr
  refine ⟨idem, ?_, ?_⟩
  · rw [runLoop_cons_continue dumpsB cfg
        ⟨fe1, [ExtEvent.trigger, ExtEvent.trigger], false⟩
        (⟨fe2, [], false⟩ :: rest) s hcond1 rfl,
      runLoop_cons_continue dumpsB cfg ⟨fe1, [ExtEvent.trigger], false⟩
        (⟨fe2, [], false⟩ :: rest) s hcond1 rfl, hiter]
  · rw [runLoop_cons_continue dumpsB cfg
        ⟨fe1, [ExtEvent.trigger, ExtEvent.trigger], false⟩
        (⟨fe2, [], false⟩ :: rest) s hcond1 rfl,
      runLoop_cons_continue dumpsB cfg ⟨fe2, [], false⟩ rest
        (iterNext dumpsB cfg
          ⟨fe1, [ExtEvent.trigger, ExtEvent.trigger], false⟩ s)
        (Or.inl hrun3) rfl]
    exact ⟨_, _, _, rfl, rfl, rfl⟩

/-- Witness for C8 on a concrete running one-record state. -/
theorem C8_trigger_idempotent_witness :
    oneRecState.running = true ∧
    ((∀ t : AQState Nat,
        trigger_flush (trigger_flush t) = trigger_flush t) ∧
      runLoop toString cfgNull
          (⟨⟨none, none⟩, [ExtEvent.trigger, ExtEvent.trigger], false⟩ ::
            ⟨⟨none, none⟩, [], false⟩ :: []) oneRecState =
        runLoop toString cfgNull
          (⟨⟨none, none⟩, [ExtEvent.trigger], false⟩ ::
            ⟨⟨none, none⟩, [], false⟩ :: []) oneRecState ∧
      ∃ e1 e2 tr,
        (runLoop toString cfgNull
            (⟨⟨none, none⟩, [ExtEvent.trigger, ExtEvent.trigger], false⟩ ::
              ⟨⟨none, none⟩, [], false⟩ :: []) oneRecState).2.1 =
          e1 :: e2 :: tr ∧
        e1.triggered = true ∧ e2.triggered = false) :=
  ⟨rfl, C8_trigger_idempotent toString cfgNull ⟨none, none⟩ ⟨none, none⟩
    [] oneRecState rfl⟩

/-- C9 counterexample: a concrete run in which the shutdown request lands
with a new record during a wait whose TypeError then ends the loop: the
loop terminates with running false and a non-empty queue, its only flush
(of the empty batch) having happened before the shutdown request, so
neither the one-more-flush clause nor the terminates-only-empty clause
holds as stated. -/
theorem C9_typeerror_shutdown_counterexample :
    (runLoop toString cfgNull
        [⟨⟨none, none⟩,
          [ExtEvent.stop, ExtEvent.enqueue "a" "t" 5 none], true⟩]
        (initState : AQState Nat)).2.2 = LoopExit.typeErrorExit ∧
    (runLoop toString cfgNull
        [⟨⟨none, none⟩,
          [ExtEvent.stop, ExtEvent.enqueue "a" "t" 5 none], true⟩]
        (initState : AQState Nat)).1.running = false ∧
    (runLoop toString cfgNull
        [⟨⟨none, none⟩,
          [ExtEvent.stop, ExtEvent.enqueue "a" "t" 5 none], true⟩]
        (initState : AQState Nat)).1.queue.length = 1 ∧
    ((runLoop toString cfgNull
        [⟨⟨none, none⟩,
          [ExtEvent.stop, ExtEvent.enqueue "a" "t" 5 none], true⟩]
        (initState : AQState Nat)).2.1.map (fun en => en.fo.sent)) =
      [[]] := by
  refine ⟨rfl, rfl, rfl, rfl⟩

/-- C9 (amended): in runs whose waits return normally (no
interpreter-shutdown TypeError): a stopped dispatcher with an empty queue
and no pending wake terminates at its next loop observation with no
further iteration; a stopped dispatcher with a non-empty queue performs
at least one more flush, whose batch is exactly the pending queue; and
the loop reaches its terminated exit only with running false and an empty
queue. -/
theorem C9_shutdown_drain (dumpsB : B → String) (cfg : Config) :
    (∀ (s : AQState B) (envs : List (LoopEnv B)),
      s.running = false → s.queue = [] → s.flush_event = false →
      runLoop dumpsB cfg envs s = (s, [], LoopExit.condFalse)) ∧
    (∀ (env : LoopEnv B) (rest : List (LoopEnv B)) (s : AQState B),
      s.running = false → s.queue.length > 0 →
      ∃ entry tr, (runLoop dumpsB cfg (env :: rest) s).2.1 = entry :: tr ∧
        entry.fo.sent = s.queue.map run_postprocessors) ∧
    (∀ (envs : List (LoopEnv B)) (s : AQState B),
      (∀ env ∈ envs, env.waitTypeError = false) →
      (runLoop dumpsB cfg envs s).2.2 ≠ LoopExit.typeErrorExit ∧
      ((runLoop dumpsB cfg envs s).2.2 = LoopExit.condFalse →
        (runLoop dumpsB cfg envs s).1.running = false ∧
          (runLoop dumpsB cfg envs s).1.queue = [])) := by
  refine ⟨?_, ?_, ?_⟩
  · intro s envs h1 h2 h3
    have hc : ¬(s.running = true ∨ s.queue.length > 0) := by
      simp [h1, h2]
    cases envs with
    | nil => simp [runLoop, hc]
    | cons env rest => simp [runLoop, hc]
  · intro env rest s h1 h2
    have hc : s.running = true ∨ s.queue.length > 0 := Or.inr h2
    by_cases hw : env.waitTypeError = true
    · rw [runLoop_cons_typeerror dumpsB cfg env rest s hc hw]
      exact ⟨_, [], rfl, flushCaught_sent dumpsB env.flushEnv s⟩
    · have hw' : env.waitTypeError = false := by
        cases hwv : env.waitTypeError
        · rfl
        · exact absurd hwv hw
      rw [runLoop_cons_continue dumpsB cfg env rest s hc hw']
      exact ⟨_, _, rfl, flushCaught_sent dumpsB env.flushEnv s⟩
  · intro envs s hno
    exact ⟨runLoop_no_typeerror dumpsB cfg envs hno s,
      runLoop_exit_condFalse dumpsB cfg envs s⟩

/-- Witness for C9: a stopped, drained dispatcher terminates at its next
observation. -/
theorem C9_shutdown_drain_witness :
    (⟨[], false, [], false⟩ : AQState Nat).running = false ∧
    (⟨[], false, [], false⟩ : AQState Nat).queue = [] ∧
    (⟨[], false, [], false⟩ : AQState Nat).flush_event = false ∧
    runLoop toString cfgNull [⟨⟨none, none⟩, [], false⟩]
        (⟨[], false, [], false⟩ : AQState Nat) =
      ((⟨[], false, [], false⟩ : AQState Nat), [], LoopExit.condFalse) :=
  ⟨rfl, rfl, rfl, (C9_shutdown_drain toString cfgNull).1
    ⟨[], false, [], false⟩ [⟨⟨none, none⟩, [], false⟩] rfl rfl rfl⟩

end Lumberjack
